import Mathlib

/-!
Verification of the error-handling framework of the ResearchAssistant plugin.

The framework (error taxonomy, strategy resolver, operation wrapper,
validation helper, user-message translator) is embedded shallowly from the
TypeScript excerpts in the repository's error-handling guide
(`src/unnamed/part_001`): `PluginError`, `ServiceError`, `ValidationError`,
`NetworkError`, `PluginError.toJSON`, `handleRetryStrategy`,
`handleFallbackStrategy`, `retryAsync`, and `getUserMessage`.  Pieces of
`errorHandling.ts` that are not present in the repository snapshot
(the strategy dispatch of `safeAsync`, `validate`, `getDefaultFallback`)
are modelled from the specification and marked as such.
-/

namespace ErrorHandling

/-- A JavaScript runtime value, as far as the framework inspects one:
`undefined`, `null`, booleans, numbers, strings, arrays and plain objects.
Numbers are modelled as integers (no claim involves fractional values). -/
inductive JsVal : Type where
  | undef : JsVal
  | null : JsVal
  | bool : Bool → JsVal
  | num : Int → JsVal
  | str : String → JsVal
  | arr : List JsVal → JsVal
  | obj : List (String × JsVal) → JsVal
deriving Repr

mutual

/-- Structural equality test on `JsVal`. -/
def JsVal.beq : JsVal → JsVal → Bool
  | .undef, .undef => true
  | .null, .null => true
  | .bool a, .bool b => a == b
  | .num a, .num b => a == b
  | .str a, .str b => a == b
  | .arr a, .arr b => JsVal.beqList a b
  | .obj a, .obj b => JsVal.beqFields a b
  | _, _ => false

/-- Pointwise equality of value lists. -/
def JsVal.beqList : List JsVal → List JsVal → Bool
  | [], [] => true
  | a :: as1, b :: bs1 => JsVal.beq a b && JsVal.beqList as1 bs1
  | _, _ => false

/-- Pointwise equality of object field lists. -/
def JsVal.beqFields : List (String × JsVal) → List (String × JsVal) → Bool
  | [], [] => true
  | (k, a) :: as1, (l, b) :: bs1 => k == l && JsVal.beq a b && JsVal.beqFields as1 bs1
  | _, _ => false

end

/-- JavaScript truthiness: `undefined`, `null`, `false`, `0` and `""` are
falsy; every other value (including any array or object) is truthy. -/
def JsVal.truthy : JsVal → Bool
  | .undef => false
  | .null => false
  | .bool b => b
  | .num n => n != 0
  | .str s => s != ""
  | .arr _ => true
  | .obj _ => true

/-- An optional string argument as the JavaScript value it is stored as
(`undefined` when absent). -/
def jsOfOptStr : Option String → JsVal
  | none => JsVal.undef
  | some s => JsVal.str s

/-- An optional number argument as the JavaScript value it is stored as
(`undefined` when absent). -/
def jsOfOptInt : Option Int → JsVal
  | none => JsVal.undef
  | some n => JsVal.num n

/-- The string a value renders as inside a template literal; the framework
only ever interpolates string-valued fields. -/
def JsVal.displayString : JsVal → String
  | .undef => "undefined"
  | .null => "null"
  | .bool b => cond b "true" "false"
  | .num n => toString n
  | .str s => s
  | .arr _ => ""
  | .obj _ => "[object Object]"

/-- The four error classes whose definitions appear in the repository
snapshot: `PluginError` (base), `ServiceError extends PluginError`,
`ValidationError extends PluginError`, `NetworkError extends ServiceError`. -/
inductive ErrClass : Type where
  | plugin : ErrClass
  | service : ErrClass
  | validation : ErrClass
  | network : ErrClass
deriving DecidableEq, Repr

/-- `constructor.name` of each error class. -/
def constructorName : ErrClass → String
  | .plugin => "PluginError"
  | .service => "ServiceError"
  | .validation => "ValidationError"
  | .network => "NetworkError"

/-- The JavaScript `instanceof` relation induced by the class hierarchy:
`ServiceError` and `ValidationError` extend `PluginError`, and
`NetworkError` extends `ServiceError`. -/
def classInstanceOf : ErrClass → ErrClass → Bool
  | .plugin, .plugin => true
  | .service, .service => true
  | .service, .plugin => true
  | .validation, .validation => true
  | .validation, .plugin => true
  | .network, .network => true
  | .network, .service => true
  | .network, .plugin => true
  | _, _ => false

/-- Ambient construction-time data the JavaScript runtime supplies to an
`Error` constructor: the current clock reading (`new Date().toISOString()`)
and the captured stack trace (`this.stack`). -/
structure Env : Type where
  now : String
  stack : String
deriving DecidableEq, Repr

/-- The runtime object built by the `PluginError` hierarchy constructors.
`cls` records the dynamic class for `instanceof` dispatch; the subclass
fields (`service`, `field`, `value`, `status`, `url`) read as `undefined`
on instances of classes that do not declare them. -/
structure ErrObj : Type where
  cls : ErrClass
  name : String
  message : String
  code : String
  details : JsVal
  timestamp : String
  recoverable : Bool
  stack : String
  service : JsVal
  field : JsVal
  value : JsVal
  status : JsVal
  url : JsVal
deriving Repr

/-- `new PluginError(message, code = 'PLUGIN_ERROR', details?, recoverable = true)`.
An `Option` argument models a TypeScript defaulted parameter: `none` is an
omitted argument (the default applies), `some x` is an explicitly supplied
`x` (the default does not apply, even to an empty string). -/
def mkPluginError (message : String) (code : Option String) (details : JsVal)
    (recoverable : Option Bool) (env : Env) : ErrObj :=
  { cls := .plugin
    name := "PluginError"
    message := message
    code := code.getD "PLUGIN_ERROR"
    details := details
    timestamp := env.now
    recoverable := recoverable.getD true
    stack := env.stack
    service := .undef
    field := .undef
    value := .undef
    status := .undef
    url := .undef }

/-- `new ServiceError(message, service, code = 'SERVICE_ERROR', details?, recoverable = true)`:
calls `super(message, code, details, recoverable)` with `code` already
defaulted, then sets `name` and `service`. -/
def mkServiceError (message : String) (service : String) (code : Option String)
    (details : JsVal) (recoverable : Option Bool) (env : Env) : ErrObj :=
  let base := mkPluginError message (some (code.getD "SERVICE_ERROR")) details recoverable env
  { base with cls := .service, name := "ServiceError", service := .str service }

/-- `new ValidationError(message, field?, value?, code = 'VALIDATION_ERROR')`:
calls `super(message, code, { field, value }, false)` — never recoverable —
then sets `name`, `field` and `value`. -/
def mkValidationError (message : String) (field : Option String) (value : JsVal)
    (code : Option String) (env : Env) : ErrObj :=
  let base := mkPluginError message (some (code.getD "VALIDATION_ERROR"))
    (JsVal.obj [("field", jsOfOptStr field), ("value", value)]) (some false) env
  { base with
    cls := .validation
    name := "ValidationError"
    field := jsOfOptStr field
    value := value }

/-- `new NetworkError(message, status?, url?, code = 'NETWORK_ERROR')`:
calls `super(message, 'network', code, { status, url }, true)` — always
recoverable — then sets `name`, `status` and `url`. -/
def mkNetworkError (message : String) (status : Option Int) (url : Option String)
    (code : Option String) (env : Env) : ErrObj :=
  let base := mkServiceError message "network" (some (code.getD "NETWORK_ERROR"))
    (JsVal.obj [("status", jsOfOptInt status), ("url", jsOfOptStr url)]) (some true) env
  { base with
    cls := .network
    name := "NetworkError"
    status := jsOfOptInt status
    url := jsOfOptStr url }

/-- The structured dump produced by `PluginError.toJSON`. -/
structure ErrJSON : Type where
  name : String
  message : String
  code : String
  details : JsVal
  timestamp : String
  recoverable : Bool
  stack : String
deriving Repr

/-- `PluginError.toJSON`, inherited unchanged by every subclass: it returns
`{ name, message, code, details, timestamp, recoverable, stack }`. -/
def toJSON (e : ErrObj) : ErrJSON :=
  { name := e.name
    message := e.message
    code := e.code
    details := e.details
    timestamp := e.timestamp
    recoverable := e.recoverable
    stack := e.stack }

/-- The `ErrorHandlerConfig` fields the strategy code reads:
`maxRetries`, `retryDelay`, `enableLogging`, `enableReporting` and the
`fallbackValues` table.  `Option` marks fields the caller may leave
undefined; the code combines them with `||` or `?.` at each use site. -/
structure StrategyConfig : Type where
  maxRetries : Option Nat
  retryDelay : Option Nat
  enableLogging : Bool
  enableReporting : Bool
  fallbackValues : Option (List (String × JsVal))
deriving Repr

/-- `this.config.maxRetries || 3`: the default 3 applies when `maxRetries`
is undefined, and also when it is 0, because `0` is falsy. -/
def maxRetriesOrDefault (cfg : StrategyConfig) : Nat :=
  match cfg.maxRetries with
  | none => 3
  | some 0 => 3
  | some n => n

/-- Outcome of `handleRetryStrategy`: the `{ handled, shouldRetry }` record
it returns, plus `delayMs`, the argument of the single `this.delay(...)`
call it awaits (0 when no delay is performed). -/
structure RetryDecision : Type where
  handled : Bool
  shouldRetry : Bool
  delayMs : Nat
deriving DecidableEq, Repr

/-- `handleRetryStrategy(error, currentCount)`: with
`maxRetries = this.config.maxRetries || 3`, if `currentCount < maxRetries`
it awaits `this.delay(this.config.retryDelay * 2 ** currentCount)` when
`this.config.retryDelay` is truthy and returns
`{ handled: true, shouldRetry: true }`; otherwise it returns
`{ handled: false, shouldRetry: false }`.  The `error` argument only feeds
log output. -/
def handleRetryStrategy (cfg : StrategyConfig) (e : ErrObj) (currentCount : Nat) :
    RetryDecision :=
  let _ := e
  if currentCount < maxRetriesOrDefault cfg then
    { handled := true
      shouldRetry := true
      delayMs :=
        match cfg.retryDelay with
        | none => 0
        | some 0 => 0
        | some d => d * 2 ^ currentCount }
  else
    { handled := false, shouldRetry := false, delayMs := 0 }

/-- Outcome of `handleFallbackStrategy`: the `{ handled, result }` record. -/
structure FallbackDecision : Type where
  handled : Bool
  result : JsVal
deriving Repr

/-- Modelled from the spec: `getDefaultFallback` of `errorHandling.ts` is
not in the repository snapshot; the spec says the Fallback strategy uses a
"kind-specific generic default (empty object/None-equivalent)" when no
substitute is configured.  Its exact values are never relied on below. -/
def getDefaultFallback (e : ErrObj) : JsVal :=
  match e.cls with
  | .plugin => JsVal.null
  | .service => JsVal.obj []
  | .validation => JsVal.null
  | .network => JsVal.obj []

/-- JavaScript `String.prototype.toLowerCase` on the ASCII class names the
framework feeds it: lower-case every character. -/
def lowerCase (s : String) : String :=
  { data := s.data.map Char.toLower }

/-- `this.config.fallbackValues?.[error.constructor.name.toLowerCase()]`. -/
def lookupFallbackValue (cfg : StrategyConfig) (e : ErrObj) : Option JsVal :=
  cfg.fallbackValues.bind (fun kvs => kvs.lookup (lowerCase (constructorName e.cls)))

/-- `handleFallbackStrategy(error)`: looks up
`fallbackValues?.[error.constructor.name.toLowerCase()]` and returns
`{ handled: true, result: fallbackValue || this.getDefaultFallback(error) }` —
the `||` replaces an undefined or falsy configured value by the default. -/
def handleFallbackStrategy (cfg : StrategyConfig) (e : ErrObj) : FallbackDecision :=
  { handled := true
    result :=
      match lookupFallbackValue cfg e with
      | none => getDefaultFallback e
      | some v => if v.truthy then v else getDefaultFallback e }

/-- `getUserMessage(error)` from the guide's message-translation code: an
`instanceof` cascade that answers a validation prompt echoing the message,
a fixed connectivity sentence for `NetworkError`, a service-unavailable
sentence naming `error.service` for `ServiceError`, and generic text
otherwise.  `NetworkError` is tested before `ServiceError`, so a network
error never reaches the service branch. -/
def getUserMessage (e : ErrObj) : String :=
  if classInstanceOf e.cls .validation then
    "Please check your input: " ++ e.message
  else if classInstanceOf e.cls .network then
    "Network connection issue. Please try again."
  else if classInstanceOf e.cls .service then
    "Service temporarily unavailable: " ++ e.service.displayString
  else
    "An unexpected error occurred. Please try again."

/-- What one run of a retrying wrapper did: the final result, the number of
invocations of the wrapped operation, and the backoff delays awaited, in
order. -/
structure RunTrace (ε α : Type) : Type where
  result : Except ε α
  invocations : Nat
  delays : List Nat
deriving Repr

/-- The loop body of `retryAsync` from `utils.ts`, with the attempts that
remain after the current one made explicit: `remaining = maxRetries - attempt`.
At `remaining = 0` (the loop's last iteration, `attempt === maxRetries`) a
failure is re-thrown; earlier failures await `baseDelay * 2 ** attempt` and
re-invoke the operation.  The operation is modelled as a function of the
zero-indexed invocation number, so one run may fail and a later one
succeed. -/
def retryAsyncAux (op : Nat → Except ε α) (baseDelay : Nat) :
    Nat → Nat → RunTrace ε α
  | attempt, 0 =>
    match op attempt with
    | .ok a => { result := .ok a, invocations := 1, delays := [] }
    | .error e => { result := .error e, invocations := 1, delays := [] }
  | attempt, remaining + 1 =>
    match op attempt with
    | .ok a => { result := .ok a, invocations := 1, delays := [] }
    | .error _ =>
      let rest := retryAsyncAux op baseDelay (attempt + 1) remaining
      { result := rest.result
        invocations := rest.invocations + 1
        delays := baseDelay * 2 ^ attempt :: rest.delays }

/-- `retryAsync(operation, maxRetries = 3, baseDelay = 1000)`: runs the
`for (attempt = 0; attempt <= maxRetries; attempt++)` loop from `attempt = 0`. -/
def retryAsync (op : Nat → Except ε α) (maxRetries baseDelay : Nat) : RunTrace ε α :=
  retryAsyncAux op baseDelay 0 maxRetries

/-- Modelled from the spec: the `ErrorHandler` strategy dispatch
(`executeStrategy` / `handleError` in `errorHandling.ts`) is not in the
repository snapshot.  Per the spec's tie-break rule, `recoverable = false`
(a Validation error) short-circuits straight to unhandled under the Retry
strategy; otherwise the decision is the source `handleRetryStrategy`. -/
def resolveRetryStrategy (cfg : StrategyConfig) (e : ErrObj) (currentCount : Nat) :
    RetryDecision :=
  if e.recoverable then handleRetryStrategy cfg e currentCount
  else { handled := false, shouldRetry := false, delayMs := 0 }

/-- Modelled from the spec: the retry loop of `safeAsync` under the Retry
strategy (`errorHandling.ts`, not in the repository snapshot).  It invokes
the operation, and on failure consults `resolveRetryStrategy` with the
number of attempts already made; a `shouldRetry` decision re-invokes the
operation, anything else ends the run with the error.  `fuel` bounds the
recursion; the wrapper passes `maxRetriesOrDefault cfg`, which the resolver
never exceeds. -/
def safeAsyncRetryAux (cfg : StrategyConfig) (op : Nat → Except ErrObj α) :
    Nat → Nat → Except ErrObj α × Nat
  | 0, count =>
    match op count with
    | .ok a => (.ok a, 1)
    | .error e => (.error e, 1)
  | fuel + 1, count =>
    match op count with
    | .ok a => (.ok a, 1)
    | .error e =>
      if (resolveRetryStrategy cfg e count).shouldRetry then
        let rest := safeAsyncRetryAux cfg op fuel (count + 1)
        (rest.1, rest.2 + 1)
      else (.error e, 1)

/-- Modelled from the spec: one `safeAsync` run under the Retry strategy,
returning the outcome and the number of invocations of the operation. -/
def safeAsyncRetry (cfg : StrategyConfig) (op : Nat → Except ErrObj α) :
    Except ErrObj α × Nat :=
  safeAsyncRetryAux cfg op (maxRetriesOrDefault cfg) 0

/-- What a validation rule returned: `true`, `false`, or a violation
message string (`v => v > 0 || "must be positive"` returns `true` or the
string). -/
inductive RuleResult : Type where
  | pass : RuleResult
  | failFalse : RuleResult
  | failMsg : String → RuleResult
deriving DecidableEq, Repr

/-- Modelled from the spec: the message the Validation error carries for a
failing rule — the rule's own message, or a generic one when the rule
returned bare `false`. -/
def ruleViolationMessage (r : RuleResult) (fieldName : String) : String :=
  match r with
  | .failMsg m => m
  | _ => "Validation failed for field: " ++ fieldName

/-- Modelled from the spec: `validate(value, rules, fieldName)` of
`errorHandling.ts` is not in the repository snapshot.  Per the spec it
evaluates the rules in order and, at the first rule that does not return
`true`, raises a `ValidationError` carrying the field name and the
offending value (the source `mkValidationError` supplies
`recoverable = false`); if every rule passes it returns the value. -/
def validate (value : JsVal) (rules : List (JsVal → RuleResult))
    (fieldName : String) (env : Env) : Except ErrObj JsVal :=
  match rules with
  | [] => .ok value
  | r :: rest =>
    match r value with
    | .pass => validate value rest fieldName env
    | res => .error (mkValidationError (ruleViolationMessage res fieldName)
        (some fieldName) value none env)

/-- Bool-valued substring test: does `needle` occur contiguously inside
`hay`? -/
def containsSubstring (needle hay : String) : Bool :=
  (List.range (hay.length + 1)).any
    (fun i => ((hay.data.drop i).take needle.length) == needle.data)

/-- A fixed construction environment used by concrete witnesses. -/
def envX : Env :=
  { now := "2026-01-01T00:00:00.000Z", stack := "Error: at fetchData" }

/-- Behaviour of the `retryAsync` loop on an operation that fails on every
invocation: starting at any attempt index, with `remaining` further
attempts allowed, the operation runs `remaining + 1` times, a delay of
`baseDelay * 2 ^ attempt` precedes each re-invocation, and the run ends in
an error. -/
theorem retryAsyncAux_allFail {ε α : Type} (op : Nat → Except ε α) (d : Nat)
    (h : ∀ i, ∃ e, op i = Except.error e) :
    ∀ remaining attempt,
      (retryAsyncAux op d attempt remaining).invocations = remaining + 1
      ∧ (retryAsyncAux op d attempt remaining).delays
          = (List.range remaining).map (fun i => d * 2 ^ (attempt + i))
      ∧ ∃ e, (retryAsyncAux op d attempt remaining).result = Except.error e := by
  intro remaining
  induction remaining with
  | zero =>
    intro attempt
    obtain ⟨e, he⟩ := h attempt
    refine ⟨?_, ?_, e, ?_⟩ <;> simp [retryAsyncAux, he]
  | succ m ih =>
    intro attempt
    obtain ⟨e, he⟩ := h attempt
    obtain ⟨ih1, ih2, e2, ih3⟩ := ih (attempt + 1)
    refine ⟨?_, ?_, e2, ?_⟩
    · simp [retryAsyncAux, he, ih1]
    · simp only [retryAsyncAux, he, ih2, List.range_succ_eq_map, List.map_cons,
        List.map_map, Nat.add_zero]
      congr 1
      exact List.map_congr_left (fun i _ => by
        simp only [Function.comp_apply]
        congr 2
        omega)
    · simp [retryAsyncAux, he, ih3]

/-- Claim C10: every record built by the `NetworkError` constructor has
`recoverable = true`; the constructor takes no recoverability argument and
always passes `true` to its parent, so no combination of caller-supplied
arguments produces a non-recoverable Network record. -/
theorem claim10_network_always_recoverable :
    ∀ (m : String) (st : Option Int) (u : Option String) (c : Option String)
      (env : Env), (mkNetworkError m st u c env).recoverable = true :=
  fun _ _ _ _ _ => rfl

/-- Claim C2: under the Retry strategy the resolver, whenever the number of
attempts already made is below the (defaulted) retry limit, answers
retry with a backoff delay of `retryDelayMs * 2 ^ attempts` (attempt count
zero-indexed); and the `retryAsync` wrapper, on an operation failing every
time, awaits delays `baseDelay * 2 ^ 0, ..., baseDelay * 2 ^ (n - 1)` —
so the delay before the k-th retry (k ≥ 1) is `retryDelayMs * 2 ^ (k - 1)`. -/
theorem claim2_exponential_backoff :
    (∀ (cfg : StrategyConfig) (e : ErrObj) (d k : Nat),
      cfg.retryDelay = some d → k < maxRetriesOrDefault cfg →
      handleRetryStrategy cfg e k =
        { handled := true, shouldRetry := true, delayMs := d * 2 ^ k })
    ∧ (∀ (ε α : Type) (op : Nat → Except ε α) (n d : Nat),
      (∀ i, ∃ e, op i = Except.error e) →
      (retryAsync op n d).delays = (List.range n).map (fun i => d * 2 ^ i)) := by
  constructor
  · intro cfg e d k hd hk
    unfold handleRetryStrategy
    rw [if_pos hk]
    cases d with
    | zero => simp [hd]
    | succ m => simp [hd]
  · intro ε α op n d h
    have := (retryAsyncAux_allFail op d h n 0).2.1
    simpa [retryAsync] using this

/-- Claim C2 witness: with `retryDelay = 1000` and `maxRetries = 3`, the
resolver's delays for attempt counts 0, 1, 2 are 1000, 2000, 4000, and the
`retryAsync` trace of an always-failing run with `maxRetries = 3`,
`baseDelay = 1000` is `[1000, 2000, 4000]`. -/
theorem claim2_exponential_backoff_witness :
    handleRetryStrategy
        { maxRetries := some 3, retryDelay := some 1000, enableLogging := true,
          enableReporting := true, fallbackValues := none }
        (mkNetworkError "timeout" none none none envX) 2 =
      { handled := true, shouldRetry := true, delayMs := 4000 }
    ∧ (retryAsync (fun _ => (Except.error "down" : Except String Nat)) 3 1000).delays
        = [1000, 2000, 4000] := by
  constructor
  · have := claim2_exponential_backoff.1
      { maxRetries := some 3, retryDelay := some 1000, enableLogging := true,
        enableReporting := true, fallbackValues := none }
      (mkNetworkError "timeout" none none none envX) 1000 2 rfl (by decide)
    simpa using this
  · have := claim2_exponential_backoff.2 String Nat
      (fun _ => Except.error "down") 3 1000 (fun i => ⟨"down", rfl⟩)
    simpa using this

/-- Claim C3: for every `maxRetries = n`, `retryAsync` invokes an operation
that fails on every invocation exactly `n + 1` times and then gives up,
re-raising the error. -/
theorem claim3_always_fail_invocation_count :
    ∀ (ε α : Type) (op : Nat → Except ε α) (n d : Nat),
      (∀ i, ∃ e, op i = Except.error e) →
      (retryAsync op n d).invocations = n + 1
      ∧ ∃ e, (retryAsync op n d).result = Except.error e := by
  intro ε α op n d h
  have h1 := retryAsyncAux_allFail op d h n 0
  exact ⟨h1.1, h1.2.2⟩

/-- Claim C3 witness: an always-failing operation under `maxRetries = 2`
runs exactly 3 times and the run ends in the error. -/
theorem claim3_always_fail_invocation_count_witness :
    (retryAsync (fun _ => (Except.error "boom" : Except String Nat)) 2 1000).invocations
        = 2 + 1
    ∧ ∃ e, (retryAsync (fun _ => (Except.error "boom" : Except String Nat)) 2 1000).result
        = Except.error e :=
  claim3_always_fail_invocation_count String Nat (fun _ => Except.error "boom")
    2 1000 (fun _ => ⟨"boom", rfl⟩)

/-- Claim C4: `handleFallbackStrategy` always marks the error handled, looks
the substitute up under the lower-cased constructor name of the error's
class — for a Network-kind error, the key `"networkerror"` — returns a
configured truthy substitute, and substitutes the kind-specific generic
default when nothing is configured under that key. -/
theorem claim4_fallback_resolution :
    (∀ (cfg : StrategyConfig) (e : ErrObj),
      (handleFallbackStrategy cfg e).handled = true)
    ∧ (∀ (cfg : StrategyConfig) (e : ErrObj),
      lookupFallbackValue cfg e = none →
      (handleFallbackStrategy cfg e).result = getDefaultFallback e)
    ∧ (∀ (cfg : StrategyConfig) (e : ErrObj) (v : JsVal),
      lookupFallbackValue cfg e = some v → v.truthy = true →
      (handleFallbackStrategy cfg e).result = v)
    ∧ lowerCase (constructorName ErrClass.network) = "networkerror" := by
  refine ⟨fun cfg e => rfl, ?_, ?_, by decide⟩
  · intro cfg e hl
    simp [handleFallbackStrategy, hl]
  · intro cfg e v hl ht
    simp [handleFallbackStrategy, hl, ht]

/-- Claim C4 witness: a Network error with `fallbackValues` mapping
`"networkerror"` to a (truthy) cached value gets that value back, handled;
with no table configured, the same error gets the generic default. -/
theorem claim4_fallback_resolution_witness :
    (handleFallbackStrategy
        { maxRetries := none, retryDelay := none, enableLogging := false,
          enableReporting := false,
          fallbackValues := some [("networkerror", JsVal.str "cached")] }
        (mkNetworkError "timeout" (some 408) none none envX)).handled = true
    ∧ (handleFallbackStrategy
        { maxRetries := none, retryDelay := none, enableLogging := false,
          enableReporting := false,
          fallbackValues := some [("networkerror", JsVal.str "cached")] }
        (mkNetworkError "timeout" (some 408) none none envX)).result
        = JsVal.str "cached"
    ∧ (handleFallbackStrategy
        { maxRetries := none, retryDelay := none, enableLogging := false,
          enableReporting := false, fallbackValues := none }
        (mkNetworkError "timeout" (some 408) none none envX)).result
        = getDefaultFallback (mkNetworkError "timeout" (some 408) none none envX) :=
  ⟨claim4_fallback_resolution.1 _ _,
   claim4_fallback_resolution.2.2.1 _ _ (JsVal.str "cached") rfl rfl,
   claim4_fallback_resolution.2.1 _ _ rfl⟩

/-- Claim C9: in the Fallback strategy a configured substitute that is
falsy (`null`, `false`, `0`, `""` or `undefined`-valued) is discarded: the
`||` in `fallbackValue || this.getDefaultFallback(error)` makes the
kind-specific generic default the result, not only when no value is
configured. -/
theorem claim9_falsy_fallback_discarded :
    ∀ (cfg : StrategyConfig) (e : ErrObj) (v : JsVal),
      lookupFallbackValue cfg e = some v → v.truthy = false →
      (handleFallbackStrategy cfg e).result = getDefaultFallback e := by
  intro cfg e v hl ht
  simp [handleFallbackStrategy, hl, ht]

/-- Claim C9 witness: configuring `fallbackValues["networkerror"] = ""` —
a falsy but present value — still yields the generic default for a Network
error. -/
theorem claim9_falsy_fallback_discarded_witness :
    (handleFallbackStrategy
        { maxRetries := none, retryDelay := none, enableLogging := false,
          enableReporting := false,
          fallbackValues := some [("networkerror", JsVal.str "")] }
        (mkNetworkError "timeout" none none none envX)).result
      = getDefaultFallback (mkNetworkError "timeout" none none none envX) :=
  claim9_falsy_fallback_discarded _ _ (JsVal.str "") rfl rfl

/-- Claim C1: an operation whose failure is a record built by the
`ValidationError` constructor is invoked exactly once under the Retry
strategy — the record's `recoverable = false` makes the resolver
short-circuit straight to unhandled (`handled = false`), so the wrapper
never re-invokes the operation and ends the run with that error. -/
theorem claim1_validation_never_retried :
    ∀ (α : Type) (cfg : StrategyConfig) (op : Nat → Except ErrObj α)
      (m : String) (f : Option String) (v : JsVal) (c : Option String) (env : Env),
      op 0 = Except.error (mkValidationError m f v c env) →
      safeAsyncRetry cfg op = (Except.error (mkValidationError m f v c env), 1)
      ∧ (resolveRetryStrategy cfg (mkValidationError m f v c env) 0).handled = false := by
  intro α cfg op m f v c env hop
  have hrec : (mkValidationError m f v c env).recoverable = false := rfl
  constructor
  · cases hM : maxRetriesOrDefault cfg with
    | zero => simp [safeAsyncRetry, hM, safeAsyncRetryAux, hop]
    | succ k =>
      simp [safeAsyncRetry, hM, safeAsyncRetryAux, hop, resolveRetryStrategy, hrec]
  · simp [resolveRetryStrategy, hrec]

/-- Claim C1 witness: a wrapper configured for 3 retries, given an
operation raising a `ValidationError`, performs exactly one invocation and
ends unhandled with that error. -/
theorem claim1_validation_never_retried_witness :
    safeAsyncRetry
        { maxRetries := some 3, retryDelay := some 1000, enableLogging := true,
          enableReporting := true, fallbackValues := none }
        (fun _ => (Except.error
          (mkValidationError "must be positive" (some "age") (JsVal.num (-5)) none envX)
          : Except ErrObj Nat))
      = (Except.error
          (mkValidationError "must be positive" (some "age") (JsVal.num (-5)) none envX), 1)
    ∧ (resolveRetryStrategy
        { maxRetries := some 3, retryDelay := some 1000, enableLogging := true,
          enableReporting := true, fallbackValues := none }
        (mkValidationError "must be positive" (some "age") (JsVal.num (-5)) none envX)
        0).handled = false :=
  claim1_validation_never_retried Nat
    { maxRetries := some 3, retryDelay := some 1000, enableLogging := true,
      enableReporting := true, fallbackValues := none }
    (fun _ => Except.error
      (mkValidationError "must be positive" (some "age") (JsVal.num (-5)) none envX))
    "must be positive" (some "age") (JsVal.num (-5)) none envX rfl

/-- Claim C5 counterexample: the structured dump is not lossless — `toJSON`
is inherited unchanged from `PluginError` and dumps only the base fields,
so two `ServiceError` records that differ only in their `service` field
serialize to identical dumps. -/
theorem claim5_lossless_dump_counterexample :
    toJSON (mkServiceError "query failed" "api" none JsVal.undef none envX)
      = toJSON (mkServiceError "query failed" "db" none JsVal.undef none envX)
    ∧ (mkServiceError "query failed" "api" none JsVal.undef none envX).service
      ≠ (mkServiceError "query failed" "db" none JsVal.undef none envX).service := by
  refine ⟨rfl, ?_⟩
  intro h
  simp [mkServiceError, mkPluginError] at h

/-- Claim C5 amended: the dump preserves every base field (`name`,
`message`, `code`, `details`, `timestamp`, `recoverable`, `stack`), and the
kind-specific fields of Validation (`field`/`value`) and Network
(`status`/`url`) records survive inside `details`; but a `ServiceError`'s
`service` name is absent from the dump — records differing only in
`service` serialize identically. -/
theorem claim5_dump_field_preservation :
    (∀ e1 e2 : ErrObj, toJSON e1 = toJSON e2 →
      e1.name = e2.name ∧ e1.message = e2.message ∧ e1.code = e2.code
      ∧ e1.details = e2.details ∧ e1.timestamp = e2.timestamp
      ∧ e1.recoverable = e2.recoverable ∧ e1.stack = e2.stack)
    ∧ (∀ (m : String) (f : Option String) (v : JsVal) (c : Option String) (env : Env),
      (toJSON (mkValidationError m f v c env)).details
        = JsVal.obj [("field", jsOfOptStr f), ("value", v)])
    ∧ (∀ (m : String) (st : Option Int) (u : Option String) (c : Option String)
        (env : Env),
      (toJSON (mkNetworkError m st u c env)).details
        = JsVal.obj [("status", jsOfOptInt st), ("url", jsOfOptStr u)])
    ∧ (∀ (m s1 s2 : String) (c : Option String) (d : JsVal) (r : Option Bool)
        (env : Env),
      toJSON (mkServiceError m s1 c d r env) = toJSON (mkServiceError m s2 c d r env)) := by
  refine ⟨?_, fun _ _ _ _ _ => rfl, fun _ _ _ _ _ => rfl, fun _ _ _ _ _ _ _ => rfl⟩
  intro e1 e2 h
  exact ⟨congrArg ErrJSON.name h, congrArg ErrJSON.message h, congrArg ErrJSON.code h,
    congrArg ErrJSON.details h, congrArg ErrJSON.timestamp h,
    congrArg ErrJSON.recoverable h, congrArg ErrJSON.stack h⟩

/-- Claim C5 amended witness: applied to the two concrete service records
with equal dumps, the preservation theorem recovers equality of each base
field, here the `code`. -/
theorem claim5_dump_field_preservation_witness :
    (mkServiceError "query failed" "api" none JsVal.undef none envX).code
      = (mkServiceError "query failed" "db" none JsVal.undef none envX).code :=
  (claim5_dump_field_preservation.1
    (mkServiceError "query failed" "api" none JsVal.undef none envX)
    (mkServiceError "query failed" "db" none JsVal.undef none envX) rfl).2.2.1

/-- Claim C6: `validate` evaluates the rules in order; at the first rule
that does not return `true` it raises a `ValidationError` carrying the
rule's message (or a generic one for bare `false`), the field name, and the
offending value, with `recoverable = false`. -/
theorem claim6_validate_first_failure :
    ∀ (value : JsVal) (pre : List (JsVal → RuleResult)) (r : JsVal → RuleResult)
      (rest : List (JsVal → RuleResult)) (fieldName : String) (env : Env),
      (∀ r0 ∈ pre, r0 value = RuleResult.pass) → r value ≠ RuleResult.pass →
      validate value (pre ++ r :: rest) fieldName env
        = Except.error (mkValidationError (ruleViolationMessage (r value) fieldName)
            (some fieldName) value none env)
      ∧ (mkValidationError (ruleViolationMessage (r value) fieldName)
            (some fieldName) value none env).field = JsVal.str fieldName
      ∧ (mkValidationError (ruleViolationMessage (r value) fieldName)
            (some fieldName) value none env).value = value
      ∧ (mkValidationError (ruleViolationMessage (r value) fieldName)
            (some fieldName) value none env).recoverable = false := by
  intro value pre r rest fieldName env hpre hr
  refine ⟨?_, rfl, rfl, rfl⟩
  induction pre with
  | nil =>
    cases hrv : r value with
    | pass => exact absurd hrv hr
    | failFalse => simp [validate, hrv]
    | failMsg m => simp [validate, hrv]
  | cons r0 pre' ih =>
    have h0 : r0 value = RuleResult.pass := hpre r0 (List.mem_cons_self r0 pre')
    have hrest : ∀ r1 ∈ pre', r1 value = RuleResult.pass :=
      fun r1 hm => hpre r1 (List.mem_cons_of_mem r0 hm)
    simpa [validate, h0] using ih hrest

/-- A sample validation rule: `v => v > 0 || "must be positive"` applied to
a JavaScript number. -/
def positiveRule : JsVal → RuleResult
  | .num n => if n > 0 then .pass else .failMsg "must be positive"
  | _ => .failMsg "must be positive"

/-- Claim C6 witness: the spec scenario
`validate(-5, [v => v > 0 || "must be positive"], "age")` raises a
Validation error with `field = "age"`, `value = -5`, `recoverable = false`. -/
theorem claim6_validate_first_failure_witness :
    validate (JsVal.num (-5)) [positiveRule] "age" envX
      = Except.error (mkValidationError "must be positive" (some "age")
          (JsVal.num (-5)) none envX)
    ∧ (mkValidationError "must be positive" (some "age")
        (JsVal.num (-5)) none envX).field = JsVal.str "age"
    ∧ (mkValidationError "must be positive" (some "age")
        (JsVal.num (-5)) none envX).value = JsVal.num (-5)
    ∧ (mkValidationError "must be positive" (some "age")
        (JsVal.num (-5)) none envX).recoverable = false := by
  have h := claim6_validate_first_failure (JsVal.num (-5)) [] positiveRule [] "age" envX
    (by simp) (by decide)
  simpa using h

/-- Claim C7 counterexample: a framework constructor can produce a record
whose `code` is empty — the per-kind default applies only to an omitted
argument, so a caller explicitly passing the empty string gets `code = ""`. -/
theorem claim7_construction_counterexample :
    (mkPluginError "operation failed" (some "") JsVal.undef none envX).code = "" := rfl

/-- Claim C7 amended: every record built by the framework's constructors
carries the per-kind default code when the caller omits the argument and
the caller's exact string otherwise (so the code is non-empty unless an
empty string is explicitly supplied); its `timestamp` is the construction
time; and `recoverable` is false only for Validation records or when the
caller explicitly passes `false` (Network records are always recoverable). -/
theorem claim7_construction_invariants :
    (∀ (m : String) (d : JsVal) (r : Option Bool) (env : Env),
      (mkPluginError m none d r env).code = "PLUGIN_ERROR")
    ∧ (∀ (m c : String) (d : JsVal) (r : Option Bool) (env : Env),
      (mkPluginError m (some c) d r env).code = c)
    ∧ (∀ (m s : String) (d : JsVal) (r : Option Bool) (env : Env),
      (mkServiceError m s none d r env).code = "SERVICE_ERROR")
    ∧ (∀ (m s c : String) (d : JsVal) (r : Option Bool) (env : Env),
      (mkServiceError m s (some c) d r env).code = c)
    ∧ (∀ (m : String) (f : Option String) (v : JsVal) (env : Env),
      (mkValidationError m f v none env).code = "VALIDATION_ERROR")
    ∧ (∀ (m : String) (f : Option String) (v : JsVal) (c : String) (env : Env),
      (mkValidationError m f v (some c) env).code = c)
    ∧ (∀ (m : String) (st : Option Int) (u : Option String) (env : Env),
      (mkNetworkError m st u none env).code = "NETWORK_ERROR")
    ∧ (∀ (m : String) (st : Option Int) (u : Option String) (c : String) (env : Env),
      (mkNetworkError m st u (some c) env).code = c)
    ∧ (∀ (m : String) (c : Option String) (d : JsVal) (r : Option Bool) (env : Env),
      (mkPluginError m c d r env).timestamp = env.now)
    ∧ (∀ (m s : String) (c : Option String) (d : JsVal) (r : Option Bool) (env : Env),
      (mkServiceError m s c d r env).timestamp = env.now)
    ∧ (∀ (m : String) (f : Option String) (v : JsVal) (c : Option String) (env : Env),
      (mkValidationError m f v c env).timestamp = env.now)
    ∧ (∀ (m : String) (st : Option Int) (u : Option String) (c : Option String)
        (env : Env),
      (mkNetworkError m st u c env).timestamp = env.now)
    ∧ (∀ (m : String) (c : Option String) (d : JsVal) (r : Option Bool) (env : Env),
      (mkPluginError m c d r env).recoverable = r.getD true)
    ∧ (∀ (m s : String) (c : Option String) (d : JsVal) (r : Option Bool) (env : Env),
      (mkServiceError m s c d r env).recoverable = r.getD true)
    ∧ (∀ (m : String) (f : Option String) (v : JsVal) (c : Option String) (env : Env),
      (mkValidationError m f v c env).recoverable = false)
    ∧ (∀ (m : String) (st : Option Int) (u : Option String) (c : Option String)
        (env : Env),
      (mkNetworkError m st u c env).recoverable = true) := by
  refine ⟨?_, ?_, ?_, ?_, ?_, ?_, ?_, ?_, ?_, ?_, ?_, ?_, ?_, ?_, ?_, ?_⟩ <;>
    intros <;> rfl

/-- Claim C8 counterexample: `getUserMessage` for a Network-kind error
returns the fixed text "Network connection issue. Please try again.", and
that text can contain the error's technical `message` — here the upstream
message is the word "Network", which occurs inside the returned string, so
the as-stated non-containment property fails. -/
theorem claim8_user_message_counterexample :
    classInstanceOf (mkNetworkError "Network" none none none envX).cls
        ErrClass.network = true
    ∧ containsSubstring (mkNetworkError "Network" none none none envX).message
        (getUserMessage (mkNetworkError "Network" none none none envX)) = true := by
  constructor
  · rfl
  · decide

/-- Claim C8 amended: for every Network-kind error `getUserMessage` returns
the one fixed connectivity string, independent of the technical `message`
field — in particular two Network errors differing only in `message` yield
the same user-facing string, which never varies with upstream error text. -/
theorem claim8_network_message_fixed :
    (∀ (m : String) (st : Option Int) (u : Option String) (c : Option String)
        (env : Env),
      getUserMessage (mkNetworkError m st u c env)
        = "Network connection issue. Please try again.")
    ∧ (∀ (m1 m2 : String) (st : Option Int) (u : Option String) (c : Option String)
        (env : Env),
      getUserMessage (mkNetworkError m1 st u c env)
        = getUserMessage (mkNetworkError m2 st u c env)) :=
  ⟨fun _ _ _ _ _ => rfl, fun _ _ _ _ _ _ => rfl⟩

end ErrorHandling
